import Mathlib

/-!
# ShHelper: thread lifecycle and export resolution

A shallow embedding of

* `src/ShHelper/Thread/ShDrvThread.cpp`
  (`StartThreadRoutine`, `StopThreadRoutine`, `WaitTerminate`), and
* `src/ShHelper/Util/ShDrvUtil.h`
  (`GetRoutineAddress`, `GetRoutineAddressEx`, the `GET_EXPORT_*` accumulators).

Pointers are natural numbers with `0` for `nullptr`.  An `NTSTATUS` is the
32-bit pattern of the `LONG` it is in C.  Calls into the host kernel are
answered by a `Host` record and logged, in program order, in a trace of
`Event`s, so that "how often was X called, and with what" is a statement
about a list.

The sources use three helper macros whose definitions are not among them.
`ERROR_END` is read as the jump to the `FINISH:` label of the enclosing
function (the spec: all failure paths converge to a single cleanup point per
operation); `SAVE_CURRENT_COUNTER` and `PRINT_ELAPSED` time and log the call
and touch neither the arguments nor `Status`, so they leave no event.
-/

namespace ShDrv

/-! ## Basic types and constants -/

/-- A pointer value; `0` is `nullptr`. -/
abbrev Ptr := Nat

/-- The 32-bit pattern of an `NTSTATUS` (`LONG`). -/
abbrev NTSTATUS := Nat

/-- An interrupt request level as returned by `KeGetCurrentIrql`. -/
abbrev KIRQL := Nat

def STATUS_SUCCESS : NTSTATUS := 0x00000000
def STATUS_UNSUCCESSFUL : NTSTATUS := 0xC0000001
def STATUS_INVALID_PARAMETER : NTSTATUS := 0xC000000D
def STATUS_ACCESS_DENIED : NTSTATUS := 0xC0000022

def PASSIVE_LEVEL : KIRQL := 0
def DISPATCH_LEVEL : KIRQL := 2

/-- The WDK test `((NTSTATUS)(Status)) >= 0` on the signed 32-bit reading of
the pattern. -/
def NT_SUCCESS (Status : NTSTATUS) : Bool :=
  decide (Status % 2 ^ 32 < 2 ^ 31)

/-- Modelled from the spec: the enumeration behind `ThreadInformation->State`
(its declaration, in `ShDrvThread.h`, is not among the sources).  The four
enumerators are the ones `ShDrvThread.cpp` names. -/
inductive SH_THREAD_STATE
  | ThreadReady
  | ThreadRunning
  | ThreadTerminating
  | ThreadTerminated
  deriving DecidableEq, Repr

open SH_THREAD_STATE

/-- Modelled from the spec: the record behind `PSH_THREAD_INFORMATION`
(declared in `ShDrvThread.h`, not among the sources), with the two fields
`ShDrvThread.cpp` touches. -/
structure SH_THREAD_INFORMATION where
  ThreadObject : Ptr
  State : SH_THREAD_STATE
  deriving DecidableEq, Repr

/-- A by-value parameter as it lives in the callee's frame: the value the
caller passed, and the address of the frame slot that holds it (what the
expression `&Context` evaluates to). -/
structure LocalVar where
  value : Ptr
  address : Ptr
  deriving DecidableEq, Repr

/-- One observable step of a call: a call into the host kernel or into a
collaborator of the repository, or an `InterlockedExchange` on `State`. -/
inductive Event
  | PsCreateSystemThread (StartRoutine StartContext : Ptr)
  | ObReferenceObjectByHandle (Handle : Ptr)
  | ZwClose (Handle : Ptr)
  | ObDereferenceObject (Object : Ptr)
  | PsIsThreadTerminating (Thread : Ptr)
  | Sleep (Milliseconds : Nat)
  | SetState (State : SH_THREAD_STATE)
  | RtlInitUnicodeString (Name : Ptr)
  | RtlUnicodeStringValidate (Name : Ptr)
  | MmGetSystemRoutineAddress (Name : Ptr)
  | New (Object : Ptr)
  | Initialize (Pe ImageBase Process : Ptr)
  | GetAddressByExport (Pe Name : Ptr)
  | Delete (Object : Ptr)
  deriving DecidableEq, Repr

/-- The answers of the host kernel to the calls of `ShDrvThread.cpp`.

* `PsCreateSystemThread StartRoutine StartContext` gives the returned status
  and the value stored in `*ThreadHandle`.
* `ObReferenceObjectByHandle Handle` gives the returned status and what the
  host stored in `*Object` (`none`: the slot was left alone).
* `PsIsThreadTerminating k Thread` is the answer to the `k`-th poll
  (counted from 0) of one `WaitTerminate` call. -/
structure Host where
  PsCreateSystemThread : Ptr → Ptr → NTSTATUS × Ptr
  ObReferenceObjectByHandle : Ptr → NTSTATUS × Option Ptr
  PsIsThreadTerminating : Nat → Ptr → Bool

/-- What a lifecycle call leaves behind: the returned status, the record
`ThreadInformation` points to after the call (`none` for a null pointer), and
the events of the call in program order. -/
structure ThreadResult where
  Status : NTSTATUS
  Info : Option SH_THREAD_INFORMATION
  trace : List Event
  deriving DecidableEq, Repr

/-! ## `ShDrvThread.cpp` -/

/-- `ShDrvThread::StartThreadRoutine` (lines 22-68).  `ERROR_END` is the
repository's `goto FINISH;`, and `FINISH:` only logs and returns `Status`.
The start context handed to `PsCreateSystemThread` is the expression
`&Context` of line 50. -/
def StartThreadRoutine (host : Host) (irql : KIRQL) (Routine : Ptr)
    (Context : LocalVar) (ThreadInformation : Option SH_THREAD_INFORMATION) :
    ThreadResult :=
  if irql ≠ PASSIVE_LEVEL then
    { Status := STATUS_UNSUCCESSFUL, Info := ThreadInformation, trace := [] }
  else
    match ThreadInformation with
    | none => { Status := STATUS_INVALID_PARAMETER, Info := none, trace := [] }
    | some info =>
      if Routine = 0 then
        { Status := STATUS_INVALID_PARAMETER, Info := some info, trace := [] }
      else if info.State = ThreadReady then
        let created := host.PsCreateSystemThread Routine Context.address
        let ThreadHandle := created.2
        let t1 := [Event.PsCreateSystemThread Routine Context.address]
        if !NT_SUCCESS created.1 then
          { Status := created.1, Info := some info, trace := t1 }
        else
          let referenced := host.ObReferenceObjectByHandle ThreadHandle
          let info1 : SH_THREAD_INFORMATION :=
            { info with ThreadObject := referenced.2.getD info.ThreadObject }
          let t2 := t1 ++ [Event.ObReferenceObjectByHandle ThreadHandle]
          if !NT_SUCCESS referenced.1 then
            { Status := referenced.1, Info := some info1, trace := t2 }
          else
            { Status := referenced.1,
              Info := some { info1 with State := ThreadRunning },
              trace := t2 ++ [Event.SetState ThreadRunning, Event.ZwClose ThreadHandle] }
      else
        { Status := STATUS_INVALID_PARAMETER, Info := some info, trace := [] }

/-- The `while (TRUE)` loop of `WaitTerminate` (lines 130-137), from poll
number `k` on: `none` when `fuel` polls were not enough to see the thread
terminating, otherwise the events of the loop. -/
def pollTerminating (host : Host) (Thread : Ptr) : Nat → Nat → Option (List Event)
  | 0, _ => none
  | fuel + 1, k =>
    if host.PsIsThreadTerminating k Thread = true then
      some [Event.PsIsThreadTerminating Thread]
    else
      (pollTerminating host Thread fuel (k + 1)).map
        (fun rest => Event.PsIsThreadTerminating Thread :: Event.Sleep 100 :: rest)

/-- `ShDrvThread::WaitTerminate` (lines 112-144); `none` when the polling
loop does not end within `fuel` polls. -/
def WaitTerminate (host : Host) (fuel : Nat) (irql : KIRQL)
    (ThreadInformation : Option SH_THREAD_INFORMATION) : Option ThreadResult :=
  if irql > DISPATCH_LEVEL then
    some { Status := STATUS_UNSUCCESSFUL, Info := ThreadInformation, trace := [] }
  else
    match ThreadInformation with
    | none => some { Status := STATUS_INVALID_PARAMETER, Info := none, trace := [] }
    | some info =>
      if info.ThreadObject = 0 ∨ info.State ≠ ThreadRunning then
        some { Status := STATUS_INVALID_PARAMETER, Info := some info, trace := [] }
      else
        (pollTerminating host info.ThreadObject fuel 0).map fun polls =>
          { Status := STATUS_SUCCESS,
            Info := some { info with State := ThreadTerminating },
            trace := Event.SetState ThreadTerminating :: polls }

/-- `ShDrvThread::StopThreadRoutine` (lines 77-103); `none` when the wait it
delegates to does not end within `fuel` polls. -/
def StopThreadRoutine (host : Host) (fuel : Nat) (irql : KIRQL)
    (ThreadInformation : Option SH_THREAD_INFORMATION) : Option ThreadResult :=
  if irql > DISPATCH_LEVEL then
    some { Status := STATUS_UNSUCCESSFUL, Info := ThreadInformation, trace := [] }
  else
    match ThreadInformation with
    | none => some { Status := STATUS_INVALID_PARAMETER, Info := none, trace := [] }
    | some info =>
      if info.ThreadObject = 0 ∨ info.State ≠ ThreadRunning then
        some { Status := STATUS_INVALID_PARAMETER, Info := some info, trace := [] }
      else
        match WaitTerminate host fuel irql (some info) with
        | none => none
        | some waited =>
          if !NT_SUCCESS waited.Status then
            some waited
          else
            match waited.Info with
            | none => some waited
            | some info1 =>
              some { Status := waited.Status,
                     Info := some { info1 with State := ThreadTerminated },
                     trace := waited.trace ++
                       [Event.ObDereferenceObject info1.ThreadObject,
                        Event.SetState ThreadTerminated] }

/-! ## Reading a trace -/

/-- The value an event writes to `State`, if it is such a write. -/
def writtenState : Event → Option SH_THREAD_STATE
  | Event.SetState s => some s
  | _ => none

/-- The values written to `State`, in order. -/
def stateWrites (trace : List Event) : List SH_THREAD_STATE :=
  trace.filterMap writtenState

/-- Whether an event is a `PsCreateSystemThread` call. -/
def isCreate : Event → Bool
  | Event.PsCreateSystemThread _ _ => true
  | _ => false

/-- Whether an event is an `ObReferenceObjectByHandle` call. -/
def isReference : Event → Bool
  | Event.ObReferenceObjectByHandle _ => true
  | _ => false

/-- Whether an event is an `ObDereferenceObject` call. -/
def isDereference : Event → Bool
  | Event.ObDereferenceObject _ => true
  | _ => false

/-- Whether an event is a `ZwClose` call. -/
def isClose : Event → Bool
  | Event.ZwClose _ => true
  | _ => false

/-- Whether an event is a `MmGetSystemRoutineAddress` call. -/
def isLookup : Event → Bool
  | Event.MmGetSystemRoutineAddress _ => true
  | _ => false

/-- Modelled from the spec: `ShDrvMemory::New` and `ShDrvMemory::Delete` (not
among the sources) as they act on the collection of live parser objects.  A
`New` that returned an object adds it, a `Delete` of an object removes it, a
`New` that returned `nullptr` and a `Delete` of `nullptr` change nothing, and
no other event touches the collection. -/
def liveStep (live : List Ptr) : Event → List Ptr
  | Event.New p => if p = 0 then live else p :: live
  | Event.Delete p => if p = 0 then live else live.erase p
  | _ => live

/-- The live parser objects after a trace, from the ones before it. -/
def liveAfter (live : List Ptr) (trace : List Event) : List Ptr :=
  trace.foldl liveStep live

/-! ## `ShDrvUtil.h` -/

/-- The answers of the host kernel and of the collaborators that are not among
the sources to the calls of `ShDrvUtil.h`.

* `RtlUnicodeStringValidate Name`: the status for the `UNICODE_STRING` that
  `RtlInitUnicodeString` built from `Name`.
* `MmGetSystemRoutineAddress Name`: the address found, `0` for none.
* `SystemBaseAddress`: `g_Variables->SystemBaseAddress`.
* `New`: what `ShDrvMemory::New<ShDrvPe>()` returns, `0` when it fails.
* `Initialize ImageBase Process`: the status of `Pe->Initialize`.
* `GetAddressByExport ImageBase Name`: what `Pe->GetAddressByExport(Name)`
  returns on a parser initialised with `ImageBase`, `0` for none. -/
structure UtilHost where
  RtlUnicodeStringValidate : Ptr → NTSTATUS
  MmGetSystemRoutineAddress : Ptr → Ptr
  SystemBaseAddress : Ptr
  PsInitialSystemProcess : Ptr
  New : Ptr
  Initialize : Ptr → Ptr → NTSTATUS
  GetAddressByExport : Ptr → Ptr → Ptr

/-- What a resolution call leaves behind: the returned status, the value
stored in `*Routine` (`none` when the call stored nothing), and the events of
the call in program order. -/
structure RoutineResult where
  Status : NTSTATUS
  Routine : Option Ptr
  trace : List Event
  deriving DecidableEq, Repr

/-- `ShDrvUtil::GetRoutineAddress` (lines 139-165).  `Routine` is the address
of the output slot. -/
def GetRoutineAddress (host : UtilHost) (irql : KIRQL) (Name Routine : Ptr) :
    RoutineResult :=
  if irql ≠ PASSIVE_LEVEL then
    { Status := STATUS_UNSUCCESSFUL, Routine := none, trace := [] }
  else if Name = 0 ∨ Routine = 0 then
    { Status := STATUS_INVALID_PARAMETER, Routine := none, trace := [] }
  else
    let Status := host.RtlUnicodeStringValidate Name
    let t1 := [Event.RtlInitUnicodeString Name, Event.RtlUnicodeStringValidate Name]
    if !NT_SUCCESS Status then
      { Status := Status, Routine := none, trace := t1 }
    else
      let found := host.MmGetSystemRoutineAddress Name
      let t2 := t1 ++ [Event.MmGetSystemRoutineAddress Name]
      if found = 0 then
        { Status := STATUS_UNSUCCESSFUL, Routine := some found, trace := t2 }
      else
        { Status := Status, Routine := some found, trace := t2 }

/-- `ShDrvUtil::GetRoutineAddressEx` (lines 167-198).  Every path ends at
`FINISH:`, which calls `ShDrvMemory::Delete(Pe)` with whatever `Pe` holds. -/
def GetRoutineAddressEx (host : UtilHost) (Name Routine ImageBase : Ptr) :
    RoutineResult :=
  if Name = 0 ∨ Routine = 0 then
    { Status := STATUS_INVALID_PARAMETER, Routine := none, trace := [Event.Delete 0] }
  else if host.SystemBaseAddress = 0 then
    { Status := STATUS_INVALID_PARAMETER, Routine := none, trace := [Event.Delete 0] }
  else
    let ImageBase := if ImageBase ≠ 0 then ImageBase else host.SystemBaseAddress
    let Pe := host.New
    if Pe = 0 then
      { Status := STATUS_INVALID_PARAMETER, Routine := none,
        trace := [Event.New Pe, Event.Delete Pe] }
    else
      let Status := host.Initialize ImageBase host.PsInitialSystemProcess
      let t1 := [Event.New Pe, Event.Initialize Pe ImageBase host.PsInitialSystemProcess]
      if !NT_SUCCESS Status then
        { Status := Status, Routine := none, trace := t1 ++ [Event.Delete Pe] }
      else
        let found := host.GetAddressByExport ImageBase Name
        let t2 := t1 ++ [Event.GetAddressByExport Pe Name]
        if found = 0 then
          { Status := STATUS_UNSUCCESSFUL, Routine := some found,
            trace := t2 ++ [Event.Delete Pe] }
        else
          { Status := Status, Routine := some found, trace := t2 ++ [Event.Delete Pe] }

/-- `Status += x` on the 32-bit `NTSTATUS`: addition modulo `2 ^ 32`. -/
def addStatus (Status x : NTSTATUS) : NTSTATUS :=
  (Status + x) % 2 ^ 32

/-- One use of a `GET_EXPORT_*` accumulator (lines 36-46): the name, the
output slot, and for the `_EX` forms the image base. -/
inductive Resolution
  | GET_EXPORT_ROUTINE (RoutineName Slot : Ptr)
  | GET_EXPORT_VARIABLE (VarName Slot : Ptr)
  | GET_EXPORT_ROUTINE_EX (RoutineName Slot ImageBase : Ptr)
  | GET_EXPORT_VARIABLE_EX (RoutineName Slot ImageBase : Ptr)
  deriving DecidableEq, Repr

/-- The status of the call a `GET_EXPORT_*` line makes. -/
def Resolution.status (host : UtilHost) (irql : KIRQL) : Resolution → NTSTATUS
  | Resolution.GET_EXPORT_ROUTINE n s => (GetRoutineAddress host irql n s).Status
  | Resolution.GET_EXPORT_VARIABLE n s => (GetRoutineAddress host irql n s).Status
  | Resolution.GET_EXPORT_ROUTINE_EX n s b => (GetRoutineAddressEx host n s b).Status
  | Resolution.GET_EXPORT_VARIABLE_EX n s b => (GetRoutineAddressEx host n s b).Status

/-- The effect of one `GET_EXPORT_*` line on the accumulator:
`Status += ShDrvUtil::GetRoutineAddress...(...)`. -/
def Resolution.run (host : UtilHost) (irql : KIRQL) (Status : NTSTATUS)
    (r : Resolution) : NTSTATUS :=
  addStatus Status (r.status host irql)

/-- A run of `GET_EXPORT_*` lines on an accumulator that starts at
`STATUS_SUCCESS`. -/
def accumulate (host : UtilHost) (irql : KIRQL) (rs : List Resolution) : NTSTATUS :=
  rs.foldl (Resolution.run host irql) STATUS_SUCCESS

/-- The accumulator after `Status += x` for each `x` of a list of returned
statuses, from `STATUS_SUCCESS`. -/
def sumStatus (statuses : List NTSTATUS) : NTSTATUS :=
  statuses.foldl addStatus STATUS_SUCCESS

/-- The statuses of a list that are not success statuses. -/
def failures (statuses : List NTSTATUS) : List NTSTATUS :=
  statuses.filter fun x => !NT_SUCCESS x

/-! ## Concrete hosts and inputs -/

/-- A host on which thread creation gives handle `0x44`, the reference gives
thread object `0x2000`, and the thread is reported terminating from the third
poll on. -/
def cooperativeHost : Host :=
  { PsCreateSystemThread := fun _ _ => (STATUS_SUCCESS, 0x44),
    ObReferenceObjectByHandle := fun _ => (STATUS_SUCCESS, some 0x2000),
    PsIsThreadTerminating := fun k _ => decide (2 ≤ k) }

/-- A host on which thread creation gives handle `0x44` and the reference on
it is refused with `STATUS_ACCESS_DENIED`, the output slot being cleared. -/
def refusingHost : Host :=
  { PsCreateSystemThread := fun _ _ => (STATUS_SUCCESS, 0x44),
    ObReferenceObjectByHandle := fun _ => (STATUS_ACCESS_DENIED, some 0),
    PsIsThreadTerminating := fun _ _ => true }

/-- A fresh handle: no thread object, `ThreadReady`. -/
def readyInfo : SH_THREAD_INFORMATION :=
  { ThreadObject := 0, State := ThreadReady }

/-- A started handle: thread object `0x2000`, `ThreadRunning`. -/
def runningInfo : SH_THREAD_INFORMATION :=
  { ThreadObject := 0x2000, State := ThreadRunning }

/-- A null `Context` argument whose frame slot is at `0x9000`. -/
def nullContext : LocalVar :=
  { value := 0, address := 0x9000 }

/-- Another `Context` argument, `0x5000`, in the same frame slot. -/
def otherContext : LocalVar :=
  { value := 0x5000, address := 0x9000 }

/-- A kernel at `0x140000000` that exports only the name at `0x10`, at
`0x140001000`, and a second module at `0x180000000` that exports only the name
at `0x20`, at `0x180002000`; the parser is allocated at `0x7000`. -/
def sampleUtilHost : UtilHost :=
  { RtlUnicodeStringValidate := fun _ => STATUS_SUCCESS,
    MmGetSystemRoutineAddress := fun n => if n = 0x10 then 0x140001000 else 0,
    SystemBaseAddress := 0x140000000,
    PsInitialSystemProcess := 0x3000,
    New := 0x7000,
    Initialize := fun _ _ => STATUS_SUCCESS,
    GetAddressByExport := fun b n =>
      if b = 0x140000000 ∧ n = 0x10 then 0x140001000
      else if b = 0x180000000 ∧ n = 0x20 then 0x180002000 else 0 }

/-- Three `GET_EXPORT_ROUTINE` lines for names the kernel does not export. -/
def threeMissing : List Resolution :=
  [Resolution.GET_EXPORT_ROUTINE 0x30 0x100,
   Resolution.GET_EXPORT_ROUTINE 0x31 0x108,
   Resolution.GET_EXPORT_ROUTINE 0x32 0x110]

/-! ## Lemmas -/

/-! ### The polling loop -/

/-- The polling loop writes no `State` and releases no reference. -/
theorem pollTerminating_quiet (host : Host) (Thread : Ptr) :
    ∀ (fuel k : Nat) (polls : List Event),
      pollTerminating host Thread fuel k = some polls →
      stateWrites polls = [] ∧ polls.filter isDereference = [] := by
  intro fuel
  induction fuel with
  | zero => intro k polls h; simp [pollTerminating] at h
  | succ fuel ih =>
    intro k polls h
    unfold pollTerminating at h
    split at h
    · cases h; simp [stateWrites, writtenState, isDereference]
    · cases hrec : pollTerminating host Thread fuel (k + 1) with
      | none => simp [hrec] at h
      | some rest =>
        simp [hrec] at h
        subst h
        obtain ⟨h1, h2⟩ := ih (k + 1) rest hrec
        constructor
        · show List.filterMap writtenState (_ :: _ :: rest) = []
          rw [List.filterMap_cons_none rfl, List.filterMap_cons_none rfl]
          exact h1
        · simp [isDereference, h2]

/-- Enough fuel ends the loop: when poll number `k + n` reports the thread as
terminating, `n + 1` polls or more, starting at poll `k`, return. -/
theorem pollTerminating_returns (host : Host) (Thread : Ptr) :
    ∀ (n fuel k : Nat), host.PsIsThreadTerminating (k + n) Thread = true → n < fuel →
      ∃ polls, pollTerminating host Thread fuel k = some polls := by
  intro n
  induction n with
  | zero =>
    intro fuel k h hf
    obtain ⟨f, rfl⟩ : ∃ f, fuel = f + 1 := ⟨fuel - 1, by omega⟩
    refine ⟨[Event.PsIsThreadTerminating Thread], ?_⟩
    simpa [pollTerminating] using h
  | succ n ih =>
    intro fuel k h hf
    obtain ⟨f, rfl⟩ : ∃ f, fuel = f + 1 := ⟨fuel - 1, by omega⟩
    unfold pollTerminating
    by_cases hk : host.PsIsThreadTerminating k Thread = true
    · rw [if_pos hk]; exact ⟨_, rfl⟩
    · have h2 : host.PsIsThreadTerminating (k + 1 + n) Thread = true := by
        have : k + 1 + n = k + (n + 1) := by omega
        rw [this]; exact h
      obtain ⟨rest, hrest⟩ := ih f (k + 1) h2 (by omega)
      rw [if_neg hk, hrest]; exact ⟨_, rfl⟩

/-- What a successful `StopThreadRoutine` did: the handle was running with a
thread object, the wait ended, and the call wrote `Terminating`, polled,
dereferenced the thread object once and wrote `Terminated`. -/
theorem stop_success_inv (host : Host) (fuel : Nat) (irql : KIRQL)
    (ti : Option SH_THREAD_INFORMATION) (r : ThreadResult)
    (h : StopThreadRoutine host fuel irql ti = some r) (hOk : NT_SUCCESS r.Status = true) :
    ∃ info polls, ti = some info ∧ info.ThreadObject ≠ 0 ∧ info.State = ThreadRunning ∧
      irql ≤ DISPATCH_LEVEL ∧
      pollTerminating host info.ThreadObject fuel 0 = some polls ∧
      r = { Status := STATUS_SUCCESS,
            Info := some { info with State := ThreadTerminated },
            trace := (Event.SetState ThreadTerminating :: polls) ++
              [Event.ObDereferenceObject info.ThreadObject,
               Event.SetState ThreadTerminated] } := by
  unfold StopThreadRoutine at h
  split at h
  · cases h; simp [NT_SUCCESS, STATUS_UNSUCCESSFUL] at hOk
  · rename_i hirql
    cases ti with
    | none => simp at h; subst h; simp [NT_SUCCESS, STATUS_INVALID_PARAMETER] at hOk
    | some info =>
      simp only at h
      split at h
      · cases h; simp [NT_SUCCESS, STATUS_INVALID_PARAMETER] at hOk
      · rename_i hpre
        have hobj : info.ThreadObject ≠ 0 := fun e => hpre (Or.inl e)
        have hst : info.State = ThreadRunning := by
          by_contra e; exact hpre (Or.inr e)
        have hpre2 : ¬ (info.ThreadObject = 0 ∨ info.State ≠ ThreadRunning) := hpre
        cases hp : pollTerminating host info.ThreadObject fuel 0 with
        | none =>
          simp [WaitTerminate, hirql, hpre2, hp] at h
        | some polls =>
          simp [WaitTerminate, hirql, hobj, hst, hp, NT_SUCCESS, STATUS_SUCCESS] at h
          subst h
          exact ⟨info, polls, rfl, hobj, hst, not_lt.mp hirql, hp, by simp [STATUS_SUCCESS]⟩

/-- The `State` writes of a successful stop, given a quiet polling loop. -/
theorem stateWrites_stop (polls : List Event) (obj : Ptr) (h : stateWrites polls = []) :
    stateWrites ((Event.SetState ThreadTerminating :: polls) ++
      [Event.ObDereferenceObject obj, Event.SetState ThreadTerminated])
      = [ThreadTerminating, ThreadTerminated] := by
  unfold stateWrites at *
  simp only [List.cons_append, List.filterMap_cons, List.filterMap_append, writtenState, h,
    List.filterMap_nil, List.nil_append]

/-- A successful start, spelled out. -/
theorem start_success_eq (host : Host) (Routine : Ptr) (Context : LocalVar)
    (info : SH_THREAD_INFORMATION) (status : NTSTATUS) (written : Option Ptr)
    (hRoutine : Routine ≠ 0) (hReady : info.State = ThreadReady)
    (hCreate : NT_SUCCESS (host.PsCreateSystemThread Routine Context.address).1 = true)
    (hRef : host.ObReferenceObjectByHandle
      (host.PsCreateSystemThread Routine Context.address).2 = (status, written))
    (hOk : NT_SUCCESS status = true) :
    StartThreadRoutine host PASSIVE_LEVEL Routine Context (some info) =
      { Status := status,
        Info := some { ThreadObject := written.getD info.ThreadObject,
                       State := ThreadRunning },
        trace := [Event.PsCreateSystemThread Routine Context.address,
          Event.ObReferenceObjectByHandle
            (host.PsCreateSystemThread Routine Context.address).2,
          Event.SetState ThreadRunning,
          Event.ZwClose (host.PsCreateSystemThread Routine Context.address).2] } := by
  simp [StartThreadRoutine, hRoutine, hReady, hCreate, hRef, hOk]

/-- A start on which the reference is refused, spelled out: the call ends
after `ObReferenceObjectByHandle`, without `ZwClose` and without a write to
`State`. -/
theorem start_reference_refused_eq (host : Host) (Routine : Ptr) (Context : LocalVar)
    (info : SH_THREAD_INFORMATION) (status : NTSTATUS) (written : Option Ptr)
    (hRoutine : Routine ≠ 0) (hReady : info.State = ThreadReady)
    (hCreate : NT_SUCCESS (host.PsCreateSystemThread Routine Context.address).1 = true)
    (hRef : host.ObReferenceObjectByHandle
      (host.PsCreateSystemThread Routine Context.address).2 = (status, written))
    (hBad : NT_SUCCESS status = false) :
    StartThreadRoutine host PASSIVE_LEVEL Routine Context (some info) =
      { Status := status,
        Info := some { ThreadObject := written.getD info.ThreadObject,
                       State := ThreadReady },
        trace := [Event.PsCreateSystemThread Routine Context.address,
          Event.ObReferenceObjectByHandle
            (host.PsCreateSystemThread Routine Context.address).2] } := by
  simp [StartThreadRoutine, hRoutine, hReady, hCreate, hRef, hBad]

/-- Whenever `StartThreadRoutine` gets as far as thread creation, the one
`PsCreateSystemThread` call it makes carries the address of the frame slot of
`Context` as start context, whatever value the slot holds. -/
theorem start_creation_event (host : Host) (Routine : Ptr) (Context : LocalVar)
    (info : SH_THREAD_INFORMATION) (hRoutine : Routine ≠ 0)
    (hReady : info.State = ThreadReady) :
    (StartThreadRoutine host PASSIVE_LEVEL Routine Context (some info)).trace.filter isCreate
      = [Event.PsCreateSystemThread Routine Context.address] := by
  simp only [StartThreadRoutine, hRoutine, hReady]
  split_ifs <;> simp_all [isCreate]

/-- The accumulator of a run is the accumulator of the statuses the run's
calls returned. -/
theorem accumulate_eq_sumStatus (host : UtilHost) (irql : KIRQL) (rs : List Resolution) :
    accumulate host irql rs = sumStatus (rs.map (Resolution.status host irql)) := by
  unfold accumulate sumStatus
  generalize STATUS_SUCCESS = s
  induction rs generalizing s with
  | nil => rfl
  | cons r rs ih => simp only [List.foldl_cons, List.map_cons]; exact ih _

/-- Folding addition modulo `2 ^ 32` over a list adds the list up modulo
`2 ^ 32`. -/
theorem foldl_add_mod (l : List Nat) :
    ∀ s : Nat, s < 4294967296 →
      List.foldl (fun a x : Nat => (a + x) % 4294967296) s l
        = (s + l.sum) % 4294967296 := by
  induction l with
  | nil => intro s hs; simp only [List.foldl_nil, List.sum_nil]; omega
  | cons x l ih =>
    intro s _
    rw [List.foldl_cons, ih _ (Nat.mod_lt _ (by norm_num)), List.sum_cons]
    omega

/-- Accumulating is adding up modulo `2 ^ 32`. -/
theorem foldl_addStatus (l : List Nat) (s : Nat) (hs : s < 4294967296) :
    l.foldl addStatus s = (s + l.sum) % 4294967296 :=
  foldl_add_mod l s hs

/-- The sum of statuses drawn from `STATUS_SUCCESS`, `STATUS_UNSUCCESSFUL` and
`STATUS_INVALID_PARAMETER`, by the number of failures of each kind. -/
theorem sum_of_statuses (l : List NTSTATUS)
    (h : ∀ x ∈ l, x = STATUS_SUCCESS ∨ x = STATUS_UNSUCCESSFUL ∨
      x = STATUS_INVALID_PARAMETER) :
    ∃ a b : Nat, l.sum = a * STATUS_UNSUCCESSFUL + b * STATUS_INVALID_PARAMETER ∧
      a + b = (failures l).length := by
  induction l with
  | nil => exact ⟨0, 0, by simp [failures]⟩
  | cons x l ih =>
    obtain ⟨a, b, hs, hl⟩ := ih fun y hy => h y (List.mem_cons_of_mem _ hy)
    have hS : NT_SUCCESS STATUS_SUCCESS = true := by decide
    have hU : NT_SUCCESS STATUS_UNSUCCESSFUL = false := by decide
    have hI : NT_SUCCESS STATUS_INVALID_PARAMETER = false := by decide
    rcases h x (List.mem_cons_self _ _) with rfl | rfl | rfl
    · refine ⟨a, b, ?_, ?_⟩
      · rw [List.sum_cons, hs]; simp [STATUS_SUCCESS]
      · unfold failures at hl ⊢; simp [List.filter_cons, hS, hl]
    · refine ⟨a + 1, b, ?_, ?_⟩
      · rw [List.sum_cons, hs]; ring
      · unfold failures at hl ⊢; simp [List.filter_cons, hU]; omega
    · refine ⟨a, b + 1, ?_, ?_⟩
      · rw [List.sum_cons, hs]; ring
      · unfold failures at hl ⊢; simp [List.filter_cons, hI]; omega

/-- Up to two failures the accumulator tells the truth: for statuses drawn from
`STATUS_SUCCESS`, `STATUS_UNSUCCESSFUL` and `STATUS_INVALID_PARAMETER` of which
at most two are failures, the accumulated `Status` is a success status exactly
when every status of the list is one. -/
theorem sumStatus_at_most_two_failures (l : List NTSTATUS)
    (h : ∀ x ∈ l, x = STATUS_SUCCESS ∨ x = STATUS_UNSUCCESSFUL ∨
      x = STATUS_INVALID_PARAMETER)
    (hTwo : (failures l).length ≤ 2) :
    NT_SUCCESS (sumStatus l) = true ↔ ∀ x ∈ l, NT_SUCCESS x = true := by
  obtain ⟨a, b, hs, hl⟩ := sum_of_statuses l h
  have hsum : sumStatus l = l.sum % 4294967296 := by
    unfold sumStatus
    rw [foldl_addStatus l STATUS_SUCCESS (by decide)]
    simp [STATUS_SUCCESS]
  have hall : (∀ x ∈ l, NT_SUCCESS x = true) ↔ (failures l).length = 0 := by
    unfold failures
    rw [List.length_eq_zero, List.filter_eq_nil_iff]
    simp
  rw [hall, hsum, hs, ← hl]
  unfold NT_SUCCESS STATUS_UNSUCCESSFUL STATUS_INVALID_PARAMETER
  have hab : a + b ≤ 2 := by omega
  simp only [decide_eq_true_eq, Nat.reducePow]
  have ha : a ≤ 2 := by omega
  have hb : b ≤ 2 := by omega
  interval_cases a <;> interval_cases b <;> first | (exfalso; omega) | norm_num

/-! ## Theorems: thread lifecycle -/

/-- C1: at `PASSIVE_LEVEL`, with a non-null routine and a non-null handle whose
`State` is not `ThreadReady`, `StartThreadRoutine` returns
`STATUS_INVALID_PARAMETER` (not a success status), calls neither
`PsCreateSystemThread` nor `ObReferenceObjectByHandle` (it makes no call at
all), and leaves the record, `State` and `ThreadObject`, as it was. -/
theorem start_not_ready_fails (host : Host) (Routine : Ptr) (Context : LocalVar)
    (info : SH_THREAD_INFORMATION) (hRoutine : Routine ≠ 0)
    (hState : info.State ≠ ThreadReady) :
    let r := StartThreadRoutine host PASSIVE_LEVEL Routine Context (some info)
    r.Status = STATUS_INVALID_PARAMETER ∧ NT_SUCCESS r.Status = false ∧
      r.trace = [] ∧ (r.trace.filter isCreate).length = 0 ∧
      (r.trace.filter isReference).length = 0 ∧ r.Info = some info := by
  simp [StartThreadRoutine, hRoutine, hState, NT_SUCCESS, STATUS_INVALID_PARAMETER]

/-- C1 at a concrete input: a running handle with thread object `0x2000`. -/
theorem start_not_ready_fails_witness :
    (7 : Ptr) ≠ 0 ∧ runningInfo.State ≠ ThreadReady ∧
      (StartThreadRoutine cooperativeHost PASSIVE_LEVEL 7 nullContext
        (some runningInfo)).Status = STATUS_INVALID_PARAMETER ∧
      (StartThreadRoutine cooperativeHost PASSIVE_LEVEL 7 nullContext
        (some runningInfo)).trace = [] ∧
      (StartThreadRoutine cooperativeHost PASSIVE_LEVEL 7 nullContext
        (some runningInfo)).Info = some runningInfo :=
  have h := start_not_ready_fails cooperativeHost 7 nullContext runningInfo
    (by decide) (by decide)
  ⟨by decide, by decide, h.1, h.2.2.1, h.2.2.2.2.2⟩

/-- C2: a handle in `ThreadReady` is started at `PASSIVE_LEVEL` with thread
creation succeeding and the reference acquired (`ObReferenceObjectByHandle`
reports `STATUS_SUCCESS` and stores a thread object), then stopped at an IRQL
of at most `DISPATCH_LEVEL` with the worker reported terminating at some poll
`n` and the loop given more than `n` polls.  Then the stop returns, both calls
return `STATUS_SUCCESS`, the values written to `State` over the two calls are
exactly `Running, Terminating, Terminated`, and `State` takes the values
`Ready, Running, Terminating, Terminated` in that order, each once. -/
theorem start_then_stop_states (host : Host) (fuel n : Nat) (irql : KIRQL)
    (Routine : Ptr) (Context : LocalVar) (info : SH_THREAD_INFORMATION) (obj : Ptr)
    (hRoutine : Routine ≠ 0) (hReady : info.State = ThreadReady)
    (hCreate : NT_SUCCESS (host.PsCreateSystemThread Routine Context.address).1 = true)
    (hRef : host.ObReferenceObjectByHandle
      (host.PsCreateSystemThread Routine Context.address).2 = (STATUS_SUCCESS, some obj))
    (hObj : obj ≠ 0) (hIrql : irql ≤ DISPATCH_LEVEL)
    (hTerm : host.PsIsThreadTerminating n obj = true) (hFuel : n < fuel) :
    ∃ stopped : ThreadResult,
      StopThreadRoutine host fuel irql
        (StartThreadRoutine host PASSIVE_LEVEL Routine Context (some info)).Info
        = some stopped ∧
      (StartThreadRoutine host PASSIVE_LEVEL Routine Context (some info)).Status
        = STATUS_SUCCESS ∧
      stopped.Status = STATUS_SUCCESS ∧
      stateWrites ((StartThreadRoutine host PASSIVE_LEVEL Routine Context
        (some info)).trace ++ stopped.trace)
        = [ThreadRunning, ThreadTerminating, ThreadTerminated] ∧
      info.State :: stateWrites ((StartThreadRoutine host PASSIVE_LEVEL Routine Context
        (some info)).trace ++ stopped.trace)
        = [ThreadReady, ThreadRunning, ThreadTerminating, ThreadTerminated] ∧
      (info.State :: stateWrites ((StartThreadRoutine host PASSIVE_LEVEL Routine Context
        (some info)).trace ++ stopped.trace)).Nodup ∧
      stopped.Info = some { ThreadObject := obj, State := ThreadTerminated } := by
  have hStart := start_success_eq host Routine Context info STATUS_SUCCESS (some obj)
    hRoutine hReady hCreate hRef (by decide)
  obtain ⟨polls, hp⟩ :=
    pollTerminating_returns host obj n fuel 0 (by simpa using hTerm) hFuel
  obtain ⟨hq, -⟩ := pollTerminating_quiet host obj fuel 0 polls hp
  have hw := stateWrites_stop polls obj hq
  have hWrites : stateWrites
      ([Event.PsCreateSystemThread Routine Context.address,
        Event.ObReferenceObjectByHandle
          (host.PsCreateSystemThread Routine Context.address).2,
        Event.SetState ThreadRunning,
        Event.ZwClose (host.PsCreateSystemThread Routine Context.address).2] ++
       ((Event.SetState ThreadTerminating :: polls) ++
        [Event.ObDereferenceObject obj, Event.SetState ThreadTerminated]))
      = [ThreadRunning, ThreadTerminating, ThreadTerminated] := by
    have happ (a b : List Event) : stateWrites (a ++ b) = stateWrites a ++ stateWrites b :=
      List.filterMap_append a b writtenState
    rw [happ, hw]
    rfl
  rw [hStart]
  refine ⟨{ Status := STATUS_SUCCESS,
            Info := some { ThreadObject := obj, State := ThreadTerminated },
            trace := (Event.SetState ThreadTerminating :: polls) ++
              [Event.ObDereferenceObject obj, Event.SetState ThreadTerminated] },
          ?_, rfl, rfl, hWrites, ?_, ?_, rfl⟩
  · simp [StopThreadRoutine, WaitTerminate, not_lt.mpr hIrql, hObj, hp, NT_SUCCESS,
      STATUS_SUCCESS]
  · rw [hWrites, hReady]
  · rw [hWrites, hReady]; decide

/-- C2 at a concrete input: the cooperative host, a fresh handle, the stop at
`DISPATCH_LEVEL` with five polls allowed. -/
theorem start_then_stop_states_witness :
    ∃ stopped : ThreadResult,
      StopThreadRoutine cooperativeHost 5 DISPATCH_LEVEL
        (StartThreadRoutine cooperativeHost PASSIVE_LEVEL 7 nullContext
          (some readyInfo)).Info = some stopped ∧
      stopped.Status = STATUS_SUCCESS ∧
      stateWrites ((StartThreadRoutine cooperativeHost PASSIVE_LEVEL 7 nullContext
        (some readyInfo)).trace ++ stopped.trace)
        = [ThreadRunning, ThreadTerminating, ThreadTerminated] :=
  have ⟨stopped, h1, _, h3, h4, _⟩ :=
    start_then_stop_states cooperativeHost 5 2 DISPATCH_LEVEL 7 nullContext readyInfo
      0x2000 (by decide) rfl (by decide) rfl (by decide) (by decide) (by decide)
      (by decide)
  ⟨stopped, h1, h3, h4⟩

/-- C3: after a `StopThreadRoutine` call that succeeded, a second call on the
same handle (at any IRQL, on any host, with any number of polls allowed)
returns, with a status that is not a success status, and at an IRQL of at most
`DISPATCH_LEVEL` that status is `STATUS_INVALID_PARAMETER`, because `State` is
`ThreadTerminated` and not `ThreadRunning`; it makes no call, so no
`ObDereferenceObject`, and leaves the record as it was; over the two calls
there is exactly one `ObDereferenceObject`. -/
theorem stop_twice_releases_once (host host2 : Host) (fuel fuel2 : Nat)
    (irql irql2 : KIRQL) (ti : Option SH_THREAD_INFORMATION) (first : ThreadResult)
    (hFirst : StopThreadRoutine host fuel irql ti = some first)
    (hOk : NT_SUCCESS first.Status = true) :
    ∃ second : ThreadResult,
      StopThreadRoutine host2 fuel2 irql2 first.Info = some second ∧
      NT_SUCCESS second.Status = false ∧
      (irql2 ≤ DISPATCH_LEVEL → second.Status = STATUS_INVALID_PARAMETER) ∧
      (∃ info, first.Info = some info ∧ info.State = ThreadTerminated ∧
        info.State ≠ ThreadRunning) ∧
      second.trace = [] ∧
      (second.trace.filter isDereference).length = 0 ∧
      second.Info = first.Info ∧
      ((first.trace ++ second.trace).filter isDereference).length = 1 := by
  obtain ⟨info, polls, -, -, -, -, hp, rfl⟩ := stop_success_inv host fuel irql ti first hFirst hOk
  obtain ⟨-, hq⟩ := pollTerminating_quiet host info.ThreadObject fuel 0 polls hp
  by_cases h2 : irql2 > DISPATCH_LEVEL
  · refine ⟨{ Status := STATUS_UNSUCCESSFUL,
              Info := some { info with State := ThreadTerminated }, trace := [] },
            ?_, ?_, ?_, ⟨_, rfl, rfl, by intro h; cases h⟩, rfl, rfl, rfl, ?_⟩
    · simp [StopThreadRoutine, h2]
    · show NT_SUCCESS STATUS_UNSUCCESSFUL = false
      decide
    · intro h; exact absurd h (not_le.mpr h2)
    · simp [List.filter_append, List.filter_cons, isDereference, hq]
  · refine ⟨{ Status := STATUS_INVALID_PARAMETER,
              Info := some { info with State := ThreadTerminated }, trace := [] },
            ?_, ?_, fun _ => rfl, ⟨_, rfl, rfl, by intro h; cases h⟩, rfl, rfl, rfl, ?_⟩
    · simp [StopThreadRoutine, h2]
    · show NT_SUCCESS STATUS_INVALID_PARAMETER = false
      decide
    · simp [List.filter_append, List.filter_cons, isDereference, hq]

/-- C3 at a concrete input: the running handle is stopped on the cooperative
host, then stopped again. -/
theorem stop_twice_releases_once_witness :
    ∃ first second : ThreadResult,
      StopThreadRoutine cooperativeHost 5 PASSIVE_LEVEL (some runningInfo) = some first ∧
      NT_SUCCESS first.Status = true ∧
      StopThreadRoutine cooperativeHost 5 PASSIVE_LEVEL first.Info = some second ∧
      second.Status = STATUS_INVALID_PARAMETER ∧
      ((first.trace ++ second.trace).filter isDereference).length = 1 :=
  have hFirst : StopThreadRoutine cooperativeHost 5 PASSIVE_LEVEL (some runningInfo) =
      some { Status := STATUS_SUCCESS,
             Info := some { ThreadObject := 0x2000, State := ThreadTerminated },
             trace := [Event.SetState ThreadTerminating,
               Event.PsIsThreadTerminating 0x2000, Event.Sleep 100,
               Event.PsIsThreadTerminating 0x2000, Event.Sleep 100,
               Event.PsIsThreadTerminating 0x2000,
               Event.ObDereferenceObject 0x2000,
               Event.SetState ThreadTerminated] } := by decide
  have ⟨second, h1, _, h3, _, _, _, _, h8⟩ :=
    stop_twice_releases_once cooperativeHost cooperativeHost 5 5 PASSIVE_LEVEL
      PASSIVE_LEVEL (some runningInfo) _ hFirst (by decide)
  ⟨_, second, hFirst, by decide, h1, h3 (by decide), h8⟩

/-- C4 as stated fails: at `PASSIVE_LEVEL` a null routine, a null handle and a
running handle all get the same status, `STATUS_INVALID_PARAMETER`, so the
three precondition failures (wrong IRQL, null argument, wrong state) are not
pairwise different. -/
theorem start_failures_not_pairwise_distinct :
    (StartThreadRoutine cooperativeHost PASSIVE_LEVEL 0 nullContext (some readyInfo)).Status
      = (StartThreadRoutine cooperativeHost PASSIVE_LEVEL 7 nullContext
          (some runningInfo)).Status ∧
    (StartThreadRoutine cooperativeHost PASSIVE_LEVEL 7 nullContext none).Status
      = (StartThreadRoutine cooperativeHost PASSIVE_LEVEL 7 nullContext
          (some runningInfo)).Status ∧
    ¬ ((StartThreadRoutine cooperativeHost DISPATCH_LEVEL 7 nullContext
          (some readyInfo)).Status
        ≠ (StartThreadRoutine cooperativeHost PASSIVE_LEVEL 0 nullContext
          (some readyInfo)).Status ∧
       (StartThreadRoutine cooperativeHost DISPATCH_LEVEL 7 nullContext
          (some readyInfo)).Status
        ≠ (StartThreadRoutine cooperativeHost PASSIVE_LEVEL 7 nullContext
          (some runningInfo)).Status ∧
       (StartThreadRoutine cooperativeHost PASSIVE_LEVEL 0 nullContext
          (some readyInfo)).Status
        ≠ (StartThreadRoutine cooperativeHost PASSIVE_LEVEL 7 nullContext
          (some runningInfo)).Status) := by
  decide

/-- C4 as amended: the precondition failures of `StartThreadRoutine` come in
two classes.  A call at an IRQL other than `PASSIVE_LEVEL` returns
`STATUS_UNSUCCESSFUL`; at `PASSIVE_LEVEL`, a call with a null routine or a null
handle, and a call with a handle whose `State` is not `ThreadReady`, both
return `STATUS_INVALID_PARAMETER`, which differs from `STATUS_UNSUCCESSFUL`.
None of the three mutates the handle. -/
theorem start_precondition_failures (host : Host) (irql : KIRQL) (Routine : Ptr)
    (Context : LocalVar) (ti : Option SH_THREAD_INFORMATION) :
    (irql ≠ PASSIVE_LEVEL →
      (StartThreadRoutine host irql Routine Context ti).Status = STATUS_UNSUCCESSFUL ∧
      (StartThreadRoutine host irql Routine Context ti).Info = ti) ∧
    (irql = PASSIVE_LEVEL → Routine = 0 ∨ ti = none →
      (StartThreadRoutine host irql Routine Context ti).Status = STATUS_INVALID_PARAMETER ∧
      (StartThreadRoutine host irql Routine Context ti).Info = ti) ∧
    (irql = PASSIVE_LEVEL → Routine ≠ 0 →
      ∀ info, ti = some info → info.State ≠ ThreadReady →
      (StartThreadRoutine host irql Routine Context ti).Status = STATUS_INVALID_PARAMETER ∧
      (StartThreadRoutine host irql Routine Context ti).Info = ti) ∧
    STATUS_UNSUCCESSFUL ≠ STATUS_INVALID_PARAMETER := by
  refine ⟨?_, ?_, ?_, by decide⟩
  · intro h
    simp [StartThreadRoutine, h]
  · rintro rfl h
    cases ti with
    | none => simp [StartThreadRoutine]
    | some info =>
      have hR : Routine = 0 := by simpa using h
      simp [StartThreadRoutine, hR]
  · rintro rfl hR info rfl hS
    simp [StartThreadRoutine, hR, hS]

/-- C4 as amended, at concrete inputs: a call at `DISPATCH_LEVEL`, a call with
a null routine, and a call with a running handle. -/
theorem start_precondition_failures_witness :
    (StartThreadRoutine cooperativeHost DISPATCH_LEVEL 7 nullContext
      (some readyInfo)).Status = STATUS_UNSUCCESSFUL ∧
    (StartThreadRoutine cooperativeHost PASSIVE_LEVEL 0 nullContext
      (some readyInfo)).Status = STATUS_INVALID_PARAMETER ∧
    (StartThreadRoutine cooperativeHost PASSIVE_LEVEL 7 nullContext
      (some runningInfo)).Status = STATUS_INVALID_PARAMETER ∧
    (StartThreadRoutine cooperativeHost PASSIVE_LEVEL 7 nullContext
      (some runningInfo)).Info = some runningInfo :=
  ⟨((start_precondition_failures cooperativeHost DISPATCH_LEVEL 7 nullContext
      (some readyInfo)).1 (by decide)).1,
   ((start_precondition_failures cooperativeHost PASSIVE_LEVEL 0 nullContext
      (some readyInfo)).2.1 rfl (Or.inl rfl)).1,
   ((start_precondition_failures cooperativeHost PASSIVE_LEVEL 7 nullContext
      (some runningInfo)).2.2.1 rfl (by decide) runningInfo rfl (by decide)).1,
   ((start_precondition_failures cooperativeHost PASSIVE_LEVEL 7 nullContext
      (some runningInfo)).2.2.1 rfl (by decide) runningInfo rfl (by decide)).2⟩

/-- C5, the code at the failing input: thread creation gives handle `0x44` and
`ObReferenceObjectByHandle` is refused.  The call returns the refusal with
`State` still `ThreadReady`, and its trace ends at the refused reference:
`ZwClose` is never called on `0x44`.  On the cooperative host, where the
reference is granted, the same handle is closed exactly once. -/
theorem start_refused_reference_keeps_handle_open :
    (StartThreadRoutine refusingHost PASSIVE_LEVEL 7 nullContext (some readyInfo)).Status
      = STATUS_ACCESS_DENIED ∧
    (StartThreadRoutine refusingHost PASSIVE_LEVEL 7 nullContext (some readyInfo)).Info
      = some readyInfo ∧
    (StartThreadRoutine refusingHost PASSIVE_LEVEL 7 nullContext (some readyInfo)).trace
      = [Event.PsCreateSystemThread 7 0x9000, Event.ObReferenceObjectByHandle 0x44] ∧
    ((StartThreadRoutine refusingHost PASSIVE_LEVEL 7 nullContext
      (some readyInfo)).trace.filter isClose).length = 0 ∧
    (StartThreadRoutine cooperativeHost PASSIVE_LEVEL 7 nullContext
      (some readyInfo)).trace.filter isClose = [Event.ZwClose 0x44] := by
  decide

/-- C9, the code at the failing input: with a null `Context` held in the frame
slot at `0x9000`, the start context handed to `PsCreateSystemThread` is
`0x9000`, the address of the slot, and not the null value the caller passed;
and a call with `Context = 0x5000` in the same slot hands over the very same
start context. -/
theorem start_passes_address_of_context :
    nullContext.value = 0 ∧
    (StartThreadRoutine cooperativeHost PASSIVE_LEVEL 7 nullContext
      (some readyInfo)).trace.filter isCreate = [Event.PsCreateSystemThread 7 0x9000] ∧
    (StartThreadRoutine cooperativeHost PASSIVE_LEVEL 7 nullContext
      (some readyInfo)).trace.filter isCreate
      ≠ [Event.PsCreateSystemThread 7 nullContext.value] ∧
    otherContext.value = 0x5000 ∧
    (StartThreadRoutine cooperativeHost PASSIVE_LEVEL 7 otherContext
      (some readyInfo)).trace.filter isCreate = [Event.PsCreateSystemThread 7 0x9000] := by
  decide

/-! ## Theorems: export resolution -/

/-- C6: whatever the outcome of a `GetRoutineAddressEx` call, the collection
of live parser objects after the call is the one before it (so their count is
unchanged), every object `ShDrvMemory::New` returned during the call is passed
to `ShDrvMemory::Delete` exactly once, and the last thing the call does is the
`Delete`. -/
theorem routineEx_releases_parse_object (host : UtilHost) (Name Routine ImageBase : Ptr)
    (live : List Ptr) :
    liveAfter live (GetRoutineAddressEx host Name Routine ImageBase).trace = live ∧
    (liveAfter live (GetRoutineAddressEx host Name Routine ImageBase).trace).length
      = live.length ∧
    (∀ p, p ≠ 0 → Event.New p ∈ (GetRoutineAddressEx host Name Routine ImageBase).trace →
      (GetRoutineAddressEx host Name Routine ImageBase).trace.count (Event.Delete p) = 1 ∧
      (GetRoutineAddressEx host Name Routine ImageBase).trace.count (Event.New p) = 1 ∧
      (GetRoutineAddressEx host Name Routine ImageBase).trace.getLast?
        = some (Event.Delete p)) := by
  have hLive : liveAfter live (GetRoutineAddressEx host Name Routine ImageBase).trace
      = live := by
    simp only [GetRoutineAddressEx]
    split_ifs <;> simp_all [liveAfter, liveStep]
  refine ⟨hLive, by rw [hLive], ?_⟩
  intro p hp hNew
  simp only [GetRoutineAddressEx] at hNew ⊢
  split_ifs at hNew ⊢ <;> simp_all [List.count_cons]

/-- C6 at a concrete input: a lookup of a name the second module does not
export, with one parser object already live. -/
theorem routineEx_releases_parse_object_witness :
    (GetRoutineAddressEx sampleUtilHost 0x10 0x100 0x180000000).Status
      = STATUS_UNSUCCESSFUL ∧
    liveAfter [0x6000] (GetRoutineAddressEx sampleUtilHost 0x10 0x100 0x180000000).trace
      = [0x6000] ∧
    (GetRoutineAddressEx sampleUtilHost 0x10 0x100 0x180000000).trace.count
      (Event.Delete 0x7000) = 1 :=
  ⟨by decide,
   (routineEx_releases_parse_object sampleUtilHost 0x10 0x100 0x180000000 [0x6000]).1,
   ((routineEx_releases_parse_object sampleUtilHost 0x10 0x100 0x180000000 [0x6000]).2.2
      0x7000 (by decide) (by decide)).1⟩

/-- C8: `GetRoutineAddress` returns a success status exactly when the caller
is at `PASSIVE_LEVEL`, `Name` and `Routine` are non-null, the name passes
`RtlUnicodeStringValidate`, and `MmGetSystemRoutineAddress` finds an address;
on success `*Routine` holds the address found.  At another IRQL it returns
`STATUS_UNSUCCESSFUL` and makes no call, so no lookup; at `PASSIVE_LEVEL` with a
null argument it returns `STATUS_INVALID_PARAMETER`; and when the lookup is
reached and finds nothing it returns `STATUS_UNSUCCESSFUL`. -/
theorem routine_address_status (host : UtilHost) (irql : KIRQL) (Name Routine : Ptr) :
    (NT_SUCCESS (GetRoutineAddress host irql Name Routine).Status = true ↔
      irql = PASSIVE_LEVEL ∧ Name ≠ 0 ∧ Routine ≠ 0 ∧
      NT_SUCCESS (host.RtlUnicodeStringValidate Name) = true ∧
      host.MmGetSystemRoutineAddress Name ≠ 0) ∧
    (NT_SUCCESS (GetRoutineAddress host irql Name Routine).Status = true →
      (GetRoutineAddress host irql Name Routine).Routine
        = some (host.MmGetSystemRoutineAddress Name)) ∧
    (irql ≠ PASSIVE_LEVEL →
      (GetRoutineAddress host irql Name Routine).Status = STATUS_UNSUCCESSFUL ∧
      (GetRoutineAddress host irql Name Routine).trace = [] ∧
      ((GetRoutineAddress host irql Name Routine).trace.filter isLookup).length = 0) ∧
    (irql = PASSIVE_LEVEL → Name = 0 ∨ Routine = 0 →
      (GetRoutineAddress host irql Name Routine).Status = STATUS_INVALID_PARAMETER) ∧
    (irql = PASSIVE_LEVEL → Name ≠ 0 → Routine ≠ 0 →
      NT_SUCCESS (host.RtlUnicodeStringValidate Name) = true →
      host.MmGetSystemRoutineAddress Name = 0 →
      (GetRoutineAddress host irql Name Routine).Status = STATUS_UNSUCCESSFUL) := by
  have hU : NT_SUCCESS STATUS_UNSUCCESSFUL = false := by decide
  have hI : NT_SUCCESS STATUS_INVALID_PARAMETER = false := by decide
  refine ⟨?_, ?_, ?_, ?_, ?_⟩
  · simp only [GetRoutineAddress]
    split_ifs with h1 h2 h3 h4 <;> simp_all
    intro hN hR
    rcases h2 with h | h
    · exact absurd h hN
    · exact absurd h hR
  · simp only [GetRoutineAddress]
    split_ifs <;> simp_all
  · intro h
    simp [GetRoutineAddress, h]
  · rintro rfl h
    simp [GetRoutineAddress, h]
  · rintro rfl hN hR hV hL
    simp [GetRoutineAddress, hN, hR, hV, hL]

/-- C8 at concrete inputs: an exported name, a name that is not exported, a
call at `DISPATCH_LEVEL`, and a null name. -/
theorem routine_address_status_witness :
    (GetRoutineAddress sampleUtilHost PASSIVE_LEVEL 0x10 0x100).Routine
      = some 0x140001000 ∧
    (GetRoutineAddress sampleUtilHost PASSIVE_LEVEL 0x30 0x100).Status
      = STATUS_UNSUCCESSFUL ∧
    (GetRoutineAddress sampleUtilHost DISPATCH_LEVEL 0x10 0x100).Status
      = STATUS_UNSUCCESSFUL ∧
    (GetRoutineAddress sampleUtilHost PASSIVE_LEVEL 0 0x100).Status
      = STATUS_INVALID_PARAMETER :=
  ⟨(routine_address_status sampleUtilHost PASSIVE_LEVEL 0x10 0x100).2.1 (by decide),
   (routine_address_status sampleUtilHost PASSIVE_LEVEL 0x30 0x100).2.2.2.2 rfl
     (by decide) (by decide) (by decide) (by decide),
   ((routine_address_status sampleUtilHost DISPATCH_LEVEL 0x10 0x100).2.2.1
     (by decide)).1,
   (routine_address_status sampleUtilHost PASSIVE_LEVEL 0 0x100).2.2.2.1 rfl
     (Or.inl rfl)⟩

/-- C10, the code at the failing input: three `GET_EXPORT_ROUTINE` lines for
names the kernel does not export.  Each resolution returns
`STATUS_UNSUCCESSFUL`, which is not a success status, yet the accumulated
`Status` is `0x40000003`, which `NT_SUCCESS` accepts. -/
theorem accumulate_three_failures_is_success :
    (∀ r ∈ threeMissing, r.status sampleUtilHost PASSIVE_LEVEL = STATUS_UNSUCCESSFUL) ∧
    NT_SUCCESS STATUS_UNSUCCESSFUL = false ∧
    accumulate sampleUtilHost PASSIVE_LEVEL threeMissing = 0x40000003 ∧
    NT_SUCCESS (accumulate sampleUtilHost PASSIVE_LEVEL threeMissing) = true := by
  decide

end ShDrv
